import Mathlib

/-
Verification of the Gradostroi settlement-simulation engine (adgs.py).

The Python engine is shallowly embedded: `float` values become `ℚ`,
`int` values become `ℤ` (or `ℕ` where the source only ever increments),
dictionaries keyed by freeform string ids become association lists with
Python `dict`/`defaultdict` lookup semantics (default value on a missing
key, replace-in-place on update), and each random draw is made an
explicit parameter of the operation that performs it.
-/

namespace Gradostroi

/-! ## Association lists (Python dict / defaultdict) -/

/-- Lookup with default, modelling `defaultdict.__getitem__` / `dict.get`. -/
def aget {α : Type} : List (String × α) → String → α → α
  | [], _, d => d
  | p :: rest, k, d => if p.1 = k then p.2 else aget rest k d

/-- Update, modelling `dict.__setitem__`: replace the (unique) entry for the
key in place, append a fresh entry when the key is absent. -/
def aset {α : Type} : List (String × α) → String → α → List (String × α)
  | [], k, v => [(k, v)]
  | p :: rest, k, v => if p.1 = k then (k, v) :: rest else p :: aset rest k v

/-- Lookup without default, modelling `dict.get(k)` / `k in dict`. -/
def alookup {α : Type} : List (String × α) → String → Option α
  | [], _ => none
  | p :: rest, k => if p.1 = k then some p.2 else alookup rest k

/-! ## Characters (the Character dataclass, adgs.py lines 60-98) -/

structure Character where
  name : String
  description : String
  skills : List (String × ℤ)
  relationships : List (String × ℤ)
  memory : List String
  quests_offered : List String
  personality_traits : List String
deriving DecidableEq, Repr

/-- Helper for the Python substring test: does the needle start the list. -/
def startsList : List Char → List Char → Bool
  | [], _ => true
  | _ :: _, [] => false
  | a :: as, b :: bs => (a = b) && startsList as bs

/-- Helper for the Python substring test: does the needle occur in the list. -/
def insideList (needle : List Char) : List Char → Bool
  | [] => startsList needle []
  | b :: bs => startsList needle (b :: bs) || insideList needle bs

/-- Python substring containment, `needle in hay`, for strings. -/
def strHas (hay needle : String) : Bool := insideList needle.data hay.data

/-- The `action_impact` table of `Character.react_to_action`. -/
def action_impact (action : String) : ℤ :=
  if action = "deforestation" then -25
  else if action = "build_sawmill" then -10
  else if action = "build_herbalist" then 15
  else if action = "research_ecology" then 20
  else if action = "pollute_river" then -30
  else if action = "cleanup_pollution" then 25
  else if action = "build_forge" then 10
  else 0

/-- Embedding of `Character.react_to_action` (adgs.py lines 81-98):
trait-conditioned impact, memory log, and a clamped relationship update. -/
def react_to_action (c : Character) (action : String) : Character :=
  let impact := action_impact action
  let im1 :=
    if c.personality_traits.contains "environmentalist" && strHas action "deforest" then
      (impact * 2, c.memory ++ ["player_destroyed_nature"])
    else (impact, c.memory)
  let im2 :=
    if c.personality_traits.contains "blacksmith" && strHas action "build_forge" then
      (im1.1 + 20, im1.2 ++ ["player_built_forge"])
    else im1
  { c with
    memory := im2.2,
    relationships :=
      aset c.relationships "player"
        (max (-100) (min 100 (aget c.relationships "player" 0 + im2.1))) }

/-! ## Technologies, lore secrets, and the game state -/

/-- The `Technology` dataclass (adgs.py lines 51-58); the `effects` values
are the numeric payloads of the named effects. -/
structure Technology where
  name : String
  description : String
  cost : List (String × ℚ)
  required_techs : List String
  effects : List (String × ℚ)
  researched : Bool
deriving DecidableEq, Repr

/-- One entry of `LoreSystem.ancients_secrets` (adgs.py lines 327-334). -/
structure Secret where
  name : String
  description : String
  cost : List (String × ℚ)
  effect : String
  discovered : Bool
deriving DecidableEq, Repr

/-- The mutable state owned by `Gradostroi` and its subsystem objects
(`WorldEcosystem.biome_health`, `DynamicMarket.price_history`/`trend`,
`LoreSystem.ancients_secrets`/`discovered_lore`), plus the two `GameConfig`
scalars the embedded operations read. -/
structure GameState where
  day : ℤ
  multiplier_mode : ℕ
  research_progress : ℚ
  research_complete : Bool
  victory_achieved : Bool
  craft_speed_multiplier : ℚ
  research_bonus : ℚ
  food_production_multiplier : ℚ
  happiness : ℚ
  eco_industry_penalty : ℚ
  resources : List (String × ℚ)
  buildings : List (String × ℤ)
  storage_count : ℕ
  population : ℤ
  idle_workers : ℤ
  workers : List (String × ℤ)
  researched_techs : List String
  characters : List Character
  discovered_lore : List String
  allah_event : ℤ
  globu_event : ℤ
  event_duration : ℤ
  technologies : List (String × Technology)
  ancients_secrets : List (String × Secret)
  biome_health : List (String × ℚ)
  priceHistory : List (String × List ℚ)
  trend : ℚ
  mining_actions : List (String × List (String × ℚ))
  pop_food_per_day : ℚ
  happiness_decay : ℚ
deriving DecidableEq, Repr

/-- Read of `resources[key]` with the `defaultdict(float)` default. -/
def rget (g : GameState) (key : String) : ℚ := aget g.resources key 0

/-- The `storage_capacity` property (adgs.py lines 504-506):
`STORAGE_BASE_CAPACITY + STORAGE_PER_BUILDING * storage_count`. -/
def storage_capacity (g : GameState) : ℚ := 50 + 75 * (g.storage_count : ℚ)

/-- Embedding of `workers_total` (adgs.py lines 508-509):
`sum(self.workers.values())`. -/
def workers_total (g : GameState) : ℤ := (g.workers.map Prod.snd).sum

/-- Embedding of `Gradostroi.adjust_resource` (adgs.py lines 527-531):
positive deltas on non-currency resources are clamped at storage capacity,
everything else is applied in full. -/
def adjust_resource (g : GameState) (key : String) (delta : ℚ) : GameState :=
  if delta > 0 ∧ key ≠ "wine" then
    { g with resources := aset g.resources key (min (rget g key + delta) (storage_capacity g)) }
  else
    { g with resources := aset g.resources key (rget g key + delta) }

/-! ## Dynamic market (DynamicMarket, adgs.py lines 199-264) -/

/-- The `DynamicMarket.base_prices` table with the `.get(resource, 1.0)`
default. -/
def base_price (resource : String) : ℚ :=
  aget
    [("wood", 1), ("wine", 2), ("rock", 3/2), ("food", 1),
     ("water", 1/2), ("coal", 3), ("steel", 8), ("bronze", 6),
     ("instrument", 12), ("sand", 4/5), ("clay", 9/10), ("herbs", 5/2),
     ("iron", 7/2), ("tin", 3), ("cooper", 3), ("nickel", 7/2), ("plumb", 5/2),
     ("sulfur", 7/5), ("salt", 7/10), ("sulfur_acid", 5), ("clorine", 4),
     ("ancient_tool", 40)] resource 1

/-- Embedding of `DynamicMarket._saturation_modifier` (adgs.py
lines 213-221). -/
def saturation_modifier (g : GameState) (resource : String) : ℚ :=
  let available := rget g resource
  let capacity :=
    max 1 (if resource ≠ "wine" then storage_capacity g else storage_capacity g * 10)
  let sat := available / capacity
  if sat > 9/10 then 3/5
  else if sat < 3/20 then 19/10
  else if sat < 3/10 then 13/10
  else 1

/-- Embedding of `DynamicMarket._event_modifier` (adgs.py lines 223-227). -/
def event_modifier (g : GameState) : ℚ :=
  if g.allah_event ≤ g.day ∧ g.day ≤ g.allah_event + g.event_duration then 5/4 else 1

/-- Embedding of `DynamicMarket.get_current_price` (adgs.py lines 229-240);
`noise` is the factor `1.0 + random.uniform(-0.04, 0.04)` made explicit.
Returns the reported price and the state with the rolling history updated. -/
def get_current_price (g : GameState) (resource : String) (noise : ℚ) : ℚ × GameState :=
  let base := base_price resource
  let m := saturation_modifier g resource * event_modifier g * g.trend
  let price := max (1/10) (base * m * noise)
  let hist0 := aget g.priceHistory resource [] ++ [price]
  let hist := if 20 < hist0.length then hist0.tail else hist0
  let avg := hist.sum / (hist.length : ℚ)
  ((price + avg) / 2, { g with priceHistory := aset g.priceHistory resource hist })

/-- Embedding of `DynamicMarket.execute_trade` (adgs.py lines 249-264). -/
def execute_trade (g : GameState) (resource : String) (amount : ℚ) (is_buying : Bool)
    (noise : ℚ) : Bool × GameState :=
  let price := (get_current_price g resource noise).1
  let g1 := (get_current_price g resource noise).2
  let total := price * amount
  if amount ≤ 0 then (false, g1)
  else if is_buying then
    if total ≤ rget g1 "wine" then
      (true, adjust_resource
        { g1 with resources := aset g1.resources "wine" (rget g1 "wine" - total) }
        resource amount)
    else (false, g1)
  else
    if amount ≤ rget g1 resource then
      let g2 := adjust_resource g1 resource (-amount)
      (true, { g2 with resources := aset g2.resources "wine" (rget g2 "wine" + total) })
    else (false, g1)

/-! ## Technology research and lore discovery -/

/-- The effect dispatch inside `Gradostroi._research_technology`
(adgs.py lines 740-750); an unknown effect name (such as `pollution`)
falls through unchanged. -/
def apply_tech_effect (g : GameState) (eff : String) (val : ℚ) : GameState :=
  if eff = "food_production" then
    { g with food_production_multiplier := max g.food_production_multiplier val }
  else if eff = "mining_efficiency" then
    { g with mining_actions :=
        g.mining_actions.map (fun a => (a.1, a.2.map (fun q => (q.1, q.2 * val)))) }
  else if eff = "eco_production_bonus" then
    { g with happiness := g.happiness + 2 }
  else if eff = "production_speed" then
    { g with craft_speed_multiplier := g.craft_speed_multiplier * val }
  else g

/-- Embedding of `Gradostroi._research_technology` (adgs.py lines 733-751):
debit every non-research cost, mark the technology researched, then apply
each effect.  The Python method receives the `Technology` object of
`self.technologies[tid]`; the lookup is made explicit here. -/
def research_technology (g : GameState) (tid : String) : GameState :=
  match alookup g.technologies tid with
  | none => g
  | some t =>
    let g1 := t.cost.foldl
      (fun acc p => if p.1 ≠ "research" then adjust_resource acc p.1 (-p.2) else acc) g
    let g2 := { g1 with
      technologies := aset g1.technologies tid { t with researched := true },
      researched_techs :=
        if tid ∈ g1.researched_techs then g1.researched_techs
        else g1.researched_techs ++ [tid] }
    t.effects.foldl (fun acc p => apply_tech_effect acc p.1 p.2) g2

/-- Embedding of `LoreSystem.apply_secret_effect` (adgs.py lines 355-365). -/
def apply_secret_effect (g : GameState) (effect : String) : GameState :=
  if effect = "double_agriculture" then
    { g with food_production_multiplier := max g.food_production_multiplier 2 }
  else if effect = "reveal_secrets" then
    { g with trend := g.trend * (49/50) }
  else if effect = "artifact_crafting" then
    { g with craft_speed_multiplier := g.craft_speed_multiplier * (11/10) }
  else g

/-- Embedding of `LoreSystem.discover_secret` (adgs.py lines 337-353):
guarded one-shot cost debit plus effect application. -/
def discover_secret (g : GameState) (secret_id : String) : Bool × GameState :=
  match alookup g.ancients_secrets secret_id with
  | none => (false, g)
  | some s =>
    if s.discovered then (false, g)
    else
      let cost_met :=
        (s.cost.all (fun p => p.1 = "research" || decide (rget g p.1 ≥ p.2))) &&
        (match alookup s.cost "research" with
         | some amt => decide (g.research_progress ≥ amt)
         | none => true)
      if cost_met then
        let g1 := s.cost.foldl
          (fun acc p => if p.1 ≠ "research" then adjust_resource acc p.1 (-p.2) else acc) g
        let g2 := { g1 with
          ancients_secrets := aset g1.ancients_secrets secret_id { s with discovered := true },
          discovered_lore := g1.discovered_lore ++ [secret_id] }
        (true, apply_secret_effect g2 s.effect)
      else (false, g)

/-! ## Worker assignment and end of day -/

/-- One accepted-or-rejected iteration of the assignment loop in
`Gradostroi._assign_workers_menu` (adgs.py lines 666-672): `b` is the
building type, `n` the requested worker count (parsed from digits, so
nonnegative in the source). -/
def assign_worker (g : GameState) (b : String) (n : ℤ) : GameState :=
  match alookup g.buildings b with
  | none => g
  | some cnt =>
    if cnt ≤ 0 then g
    else
      let delta := n - aget g.workers b 0
      if delta > 0 ∧ delta > g.idle_workers then g
      else
        let w := aset g.workers b (max 0 n)
        { g with workers := w, idle_workers := g.population - (w.map Prod.snd).sum }

/-- Embedding of `Gradostroi._end_of_day` (adgs.py lines 1042-1067, the
autosave hook aside): food consumption, happiness drift, starvation and
birth.  `starveRoll` stands for `random.random() < 0.1` and `birthRoll` for
`random.random() < 0.12`. -/
def end_of_day (g : GameState) (starveRoll birthRoll : Bool) : GameState :=
  let food_need := (g.population : ℚ) * g.pop_food_per_day
  let g1 : GameState :=
    if rget g "food" ≥ food_need then
      let ga := adjust_resource g "food" (-food_need)
      { ga with happiness := min 100 (ga.happiness + 1/2) }
    else
      let deficit := food_need - rget g "food"
      let ga := { g with
        resources := aset g.resources "food" 0,
        happiness := max 0 (g.happiness - 5/2 - deficit * (1/2)) }
      if starveRoll = true ∧ ga.population > 1 then
        { ga with
          population := ga.population - 1,
          idle_workers := max 0 (ga.population - 1 - workers_total ga) }
      else ga
  let g2 : GameState :=
    if g1.happiness > 50 then { g1 with happiness := max 50 (g1.happiness - g1.happiness_decay) }
    else if g1.happiness < 50 then
      { g1 with happiness := min 50 (g1.happiness + g1.happiness_decay) }
    else g1
  if g2.happiness ≥ (70 : ℚ) ∧ birthRoll = true then
    { g2 with population := g2.population + 1, idle_workers := g2.idle_workers + 1 }
  else g2

/-- The invariant of spec section 8: idle plus assigned equals population. -/
def worker_invariant (g : GameState) : Prop :=
  g.idle_workers + workers_total g = g.population

/-! ## Victory check -/

/-- Embedding of `WorldEcosystem.get_overall_health` (adgs.py
lines 182-183). -/
def overall_health (g : GameState) : ℚ :=
  (g.biome_health.map Prod.snd).sum / (g.biome_health.length : ℚ)

/-- The sum `sum(self.resources.values())` as used by `_check_victory`. -/
def resources_sum (g : GameState) : ℚ := (g.resources.map Prod.snd).sum

/-- Total stock of every resource other than the currency `wine`.
Modelled from the claim and spec wording "total non-currency resource
wealth", for comparison with what `_check_victory` actually sums. -/
def non_currency_wealth (g : GameState) : ℚ :=
  ((g.resources.filter (fun p => p.1 ≠ "wine")).map Prod.snd).sum

/-- Embedding of `Gradostroi._check_victory` (adgs.py lines 932-944): the
loop over the four latched conditions, unrolled in its fixed order. -/
def check_victory (g : GameState) : Bool × GameState :=
  if g.research_complete = true ∧ g.victory_achieved = false then
    (true, { g with victory_achieved := true })
  else if resources_sum g > 650 ∧ g.victory_achieved = false then
    (true, { g with victory_achieved := true })
  else if overall_health g > 85 ∧ g.victory_achieved = false then
    (true, { g with victory_achieved := true })
  else if g.discovered_lore.length ≥ 2 ∧ g.victory_achieved = false then
    (true, { g with victory_achieved := true })
  else (false, g)

/-! ## Character interaction (adgs.py lines 795-859) -/

/-- The player relationship score, `relationships.get("player", 0)`. -/
def rel_score (c : Character) : ℤ := aget c.relationships "player" 0

/-- The relationship update of `Gradostroi._talk_to_character`
(adgs.py lines 795-812): below 80 the score rises by 5, capped at 100. -/
def talk_to_character (c : Character) : Character :=
  let r := aget c.relationships "player" 0
  if r < 80 then
    { c with relationships := aset c.relationships "player" (min 100 (r + 5)) }
  else c

/-- Embedding of `Gradostroi._trade_with_character` (adgs.py lines 814-842):
trading is gated on score ≥ 20, runs a market purchase, and on success bumps
the score by 2 capped at 100 (the read-only price preview loop is omitted —
it touches only the price history). -/
def trade_with_character (g : GameState) (c : Character) (resource : String)
    (amount : ℚ) (noise : ℚ) : GameState × Character :=
  if aget c.relationships "player" 0 < 20 then (g, c)
  else if (execute_trade g resource amount true noise).1 then
    ((execute_trade g resource amount true noise).2,
     { c with relationships := aset c.relationships "player"
                  (min 100 (aget c.relationships "player" 0 + 2)) })
  else ((execute_trade g resource amount true noise).2, c)

/-- Embedding of `Gradostroi._help_character_quest` (adgs.py lines 844-859):
completing the sacred-grove quest removes it, adds 25 to the relationship
score WITHOUT clamping, and grants one ancient tool. -/
def help_character_quest (g : GameState) (c : Character) : GameState × Character :=
  if c.quests_offered = [] then (g, c)
  else if c.quests_offered.contains "Защитить священную рощу" then
    if aget g.biome_health "forest" 0 ≥ 80 then
      ({ g with resources := aset g.resources "ancient_tool" (rget g "ancient_tool" + 1) },
       { c with
         quests_offered := c.quests_offered.erase "Защитить священную рощу",
         relationships := aset c.relationships "player"
           (aget c.relationships "player" 0 + 25) })
    else (g, c)
  else (g, c)

/-! ## Save and load (Gradostroi.serialize / Gradostroi.deserialize) -/

/-- One entry of the `"characters"` list in a save dictionary
(adgs.py lines 1001-1004). -/
structure CharSave where
  name : String
  relationships : List (String × ℤ)
  quests : List String
  memory : List String
deriving DecidableEq, Repr

/-- The dictionary shape produced by `Gradostroi.serialize`
(adgs.py lines 982-1007), one field per key. -/
structure SaveData where
  day : ℤ
  multiplier_mode : ℕ
  research_progress : ℚ
  research_complete : Bool
  victory_achieved : Bool
  craft_speed_multiplier : ℚ
  research_bonus : ℚ
  food_production_multiplier : ℚ
  happiness : ℚ
  eco_industry_penalty : ℚ
  resources : List (String × ℚ)
  buildings : List (String × ℤ)
  storage_count : ℕ
  population : ℤ
  idle_workers : ℤ
  workers : List (String × ℤ)
  researched_techs : List String
  characters : List CharSave
  lore_discovered : List String
  ev_allah : ℤ
  ev_globu : ℤ
  ev_dur : ℤ
deriving DecidableEq, Repr

/-- The per-character dictionary written by `serialize`. -/
def char_save (c : Character) : CharSave :=
  ⟨c.name, c.relationships, c.quests_offered, c.memory⟩

/-- Embedding of `Gradostroi.serialize` (adgs.py lines 982-1007). -/
def serialize (g : GameState) : SaveData :=
  { day := g.day
    multiplier_mode := g.multiplier_mode
    research_progress := g.research_progress
    research_complete := g.research_complete
    victory_achieved := g.victory_achieved
    craft_speed_multiplier := g.craft_speed_multiplier
    research_bonus := g.research_bonus
    food_production_multiplier := g.food_production_multiplier
    happiness := g.happiness
    eco_industry_penalty := g.eco_industry_penalty
    resources := g.resources
    buildings := g.buildings
    storage_count := g.storage_count
    population := g.population
    idle_workers := g.idle_workers
    workers := g.workers
    researched_techs := g.researched_techs
    characters := g.characters.map char_save
    lore_discovered := g.discovered_lore
    ev_allah := g.allah_event
    ev_globu := g.globu_event
    ev_dur := g.event_duration }

/-- The in-place character update of `deserialize`: set relationships,
quest list and memory from the saved entry. -/
def apply_char_save (c : Character) (cd : CharSave) : Character :=
  { c with relationships := cd.relationships, quests_offered := cd.quests,
           memory := cd.memory }

/-- One iteration of the restore-characters-by-name loop in `deserialize`
(adgs.py lines 1028-1034): `name_to_char` maps a name to the LAST character
object carrying it, so the update lands on the last matching list entry;
a saved entry whose name matches no character is dropped. -/
def restore_char : List Character → CharSave → List Character
  | [], _ => []
  | c :: rest, cd =>
    if ∃ x ∈ rest, x.name = cd.name then c :: restore_char rest cd
    else if c.name = cd.name then apply_char_save c cd :: rest
    else c :: rest

/-- Embedding of `Gradostroi.deserialize` (adgs.py lines 1009-1039).  The
Python method reads each key with `.get(key, default)`; a dictionary
produced by `serialize` always carries every key, which is the shape
`SaveData` captures, so each read returns the stored value.  Fields that
are not persisted (technology/secret flags, biomes, market history, config)
are left untouched, as in the source. -/
def deserialize (g : GameState) (sd : SaveData) : GameState :=
  { g with
    day := sd.day
    multiplier_mode := sd.multiplier_mode
    research_progress := sd.research_progress
    research_complete := sd.research_complete
    victory_achieved := sd.victory_achieved
    craft_speed_multiplier := sd.craft_speed_multiplier
    research_bonus := sd.research_bonus
    food_production_multiplier := sd.food_production_multiplier
    happiness := sd.happiness
    eco_industry_penalty := sd.eco_industry_penalty
    resources := sd.resources
    buildings := sd.buildings
    storage_count := sd.storage_count
    population := sd.population
    idle_workers := sd.idle_workers
    workers := sd.workers
    researched_techs := sd.researched_techs
    characters := sd.characters.foldl restore_char g.characters
    discovered_lore := sd.lore_discovered
    allah_event := sd.ev_allah
    globu_event := sd.ev_globu
    event_duration := sd.ev_dur }

/-! ## Concrete initial data (the init blocks of Gradostroi) -/

/-- The `_init_economy` starting stocks (adgs.py lines 424-431). -/
def init_resources : List (String × ℚ) :=
  [("wood", 10), ("wine", 10), ("rock", 10), ("food", 12), ("water", 0),
   ("sand", 0), ("clay", 0), ("iron", 0), ("cooper", 0), ("tin", 0), ("nickel", 0),
   ("plumb", 0), ("salt", 0), ("sulfur", 0), ("coal", 0), ("steel", 0), ("bronze", 0),
   ("sulfur_acid", 0), ("clorine", 0), ("builder_materials", 0), ("instrument", 0),
   ("ancient_tool", 0), ("herbs", 0)]

/-- The `_init_buildings` starting counts (adgs.py line 434). -/
def init_buildings : List (String × ℤ) :=
  [("les", 0), ("sob", 0), ("kam", 0), ("pol", 0), ("pes", 0), ("gli", 0)]

/-- The `_init_constants` mining action table (adgs.py lines 405-412). -/
def init_mining_actions : List (String × List (String × ℚ)) :=
  [("1", [("wood", 5), ("wine", 1)]),
   ("2", [("wood", 1), ("wine", 3)]),
   ("3", [("rock", 3)]),
   ("4", [("food", 3), ("water", 3)]),
   ("5", [("sand", 3)]),
   ("6", [("clay", 3)])]

/-- The `_init_technology_tree` table (adgs.py lines 472-484). -/
def init_technologies : List (String × Technology) :=
  [("basic_agriculture",
    ⟨"Базовое сельское хозяйство", "Улучшенные методы выращивания пищи",
     [("research", 20)], [], [("food_production", 3/2)], false⟩),
   ("advanced_mining",
    ⟨"Продвинутая добыча", "Эффективные методы добычи ресурсов",
     [("research", 40), ("instrument", 5)], ["basic_agriculture"],
     [("mining_efficiency", 8/5)], false⟩),
   ("ecology",
    ⟨"Экология", "Понимание баланса природы",
     [("research", 60)], ["basic_agriculture"], [("eco_production_bonus", 11/10)], false⟩),
   ("industrial_revolution",
    ⟨"Промышленная революция", "Массовое производство и автоматизация",
     [("research", 100), ("steel", 20), ("coal", 30)], ["advanced_mining"],
     [("production_speed", 3/2), ("pollution", 6/5)], false⟩)]

/-- The `LoreSystem.__init__` secrets (adgs.py lines 327-334). -/
def init_secrets : List (String × Secret) :=
  [("seed_of_prosperity",
    ⟨"Семя Процветания", "Древняя технология улучшения урожая",
     [("food", 50), ("research", 10)], "double_agriculture", false⟩),
   ("memory_crystal",
    ⟨"Кристалл Памяти", "Позволяет видеть прошлое местности",
     [("rock", 30), ("water", 20)], "reveal_secrets", false⟩),
   ("forge_of_souls",
    ⟨"Кузница Душ", "Легендарная технология создания артефактов",
     [("steel", 10), ("coal", 20), ("research", 30)], "artifact_crafting", false⟩)]

/-- The `_init_characters` list (adgs.py lines 486-497). -/
def init_characters : List Character :=
  [⟨"Старейшина Леса", "Древний хранитель лесов, чутко реагирующий на экологию",
    [("wisdom", 8), ("ecology", 9), ("diplomacy", 7)], [("player", 50)], [],
    ["Защитить священную рощу", "Восстановить биоразнообразие"],
    ["environmentalist", "wise", "patient"]⟩,
   ⟨"Мастер Горных Дел", "Шахтёр и геолог, ценит технологии",
    [("mining", 9), ("crafting", 7), ("strength", 8)], [("player", 30)], [],
    ["Найти редкие руды", "Улучшить инструменты"],
    ["pragmatic", "blacksmith", "progressive"]⟩,
   ⟨"Хранительница Знаний", "Хранит секреты древних цивилизаций",
    [("knowledge", 10), ("research", 8), ("medicine", 6)], [("player", 40)], [],
    ["Исследовать древние руины", "Восстановить утраченные знания"],
    ["scholar", "curious", "traditionalist"]⟩]

/-- The `WorldEcosystem.__init__` biome health (adgs.py lines 145-150). -/
def init_biomes : List (String × ℚ) :=
  [("forest", 5), ("rivers", 0), ("soil", 8), ("air", 2)]

/-- A freshly initialised game on normal difficulty.  The three event
parameters are drawn by `_init_events` from the ranges 20-60, 120-180 and
20-60; one concrete draw is fixed here. -/
def initState : GameState :=
  { day := 0
    multiplier_mode := 0
    research_progress := 0
    research_complete := false
    victory_achieved := false
    craft_speed_multiplier := 1
    research_bonus := 1
    food_production_multiplier := 1
    happiness := 50
    eco_industry_penalty := 1
    resources := init_resources
    buildings := init_buildings
    storage_count := 1
    population := 8
    idle_workers := 8
    workers := []
    researched_techs := []
    characters := init_characters
    discovered_lore := []
    allah_event := 30
    globu_event := 150
    event_duration := 30
    technologies := init_technologies
    ancients_secrets := init_secrets
    biome_health := init_biomes
    priceHistory := []
    trend := 1
    mining_actions := init_mining_actions
    pop_food_per_day := 2/5
    happiness_decay := 1/4 }

/-! ## Concrete states used by the claims -/

/-- The state right after a first successful research of
`industrial_revolution` (and a first discovery of `seed_of_prosperity`):
steel/coal already debited once (50-20 and 60-30), craft speed already
multiplied once by 1.5, both entities marked. -/
def gC3 : GameState := { initState with
  resources := aset (aset init_resources "steel" 30) "coal" 30,
  research_progress := 120,
  researched_techs := ["basic_agriculture", "advanced_mining", "industrial_revolution"],
  technologies := aset init_technologies "industrial_revolution"
    ⟨"Промышленная революция", "Массовое производство и автоматизация",
     [("research", 100), ("steel", 20), ("coal", 30)], ["advanced_mining"],
     [("production_speed", 3/2), ("pollution", 6/5)], true⟩,
  ancients_secrets := aset init_secrets "seed_of_prosperity"
    ⟨"Семя Процветания", "Древняя технология улучшения урожая",
     [("food", 50), ("research", 10)], "double_agriculture", true⟩,
  discovered_lore := ["seed_of_prosperity"],
  food_production_multiplier := 2,
  craft_speed_multiplier := 3/2 }

/-- A reachable pre-starvation state: two settlers, both assigned to the
sawmill, no food left. -/
def gC4 : GameState := { initState with
  population := 2, idle_workers := 0, workers := [("les", 2)],
  buildings := aset init_buildings "les" 1,
  resources := aset init_resources "food" 0 }

/-- The forest elder with the relationship score driven up to 80 by repeated
talks, the quest still open. -/
def cC7 : Character :=
  ⟨"Старейшина Леса", "Древний хранитель лесов, чутко реагирующий на экологию",
   [("wisdom", 8), ("ecology", 9), ("diplomacy", 7)], [("player", 80)], [],
   ["Защитить священную рощу", "Восстановить биоразнообразие"],
   ["environmentalist", "wise", "patient"]⟩

/-- A game state whose forest biome has regenerated to 85. -/
def gC7 : GameState := { initState with biome_health := aset init_biomes "forest" 85 }

/-- The initial state with the currency stock raised to 700 (for instance by
repeatedly selling on the market, whose proceeds are uncapped); every
non-currency stock still holds its small starting value. -/
def gC6 : GameState := { initState with resources := aset init_resources "wine" 700 }

/-- A reachable state with the wood stock mined up to the storage capacity
of 125 and 100 wine accumulated (currency is uncapped). -/
def gC10 : GameState :=
  { initState with resources := aset (aset init_resources "wood" 125) "wine" 100 }

/-- The state named by the claim: day 12, wood 37.5, wine 200, two
sawmills, population 9. -/
def gC5 : GameState := { initState with
  day := 12,
  resources := aset (aset init_resources "wood" (75/2)) "wine" 200,
  buildings := aset init_buildings "les" 2,
  population := 9, idle_workers := 9 }

/-! ## Evaluation lemmas -/

theorem aget_aset_self {α : Type} (m : List (String × α)) (k : String) (v : α) (d : α) :
    aget (aset m k v) k d = v := by
  induction m with
  | nil => simp [aget, aset]
  | cons p rest ih =>
    by_cases h : p.1 = k
    · simp [aget, aset, h]
    · simp [aget, aset, h, ih]

theorem aget_aset_ne {α : Type} (m : List (String × α)) (k k' : String) (v : α) (d : α)
    (h : k' ≠ k) : aget (aset m k v) k' d = aget m k' d := by
  have h' : k ≠ k' := Ne.symm h
  induction m with
  | nil => simp [aget, aset, h']
  | cons p rest ih =>
    by_cases hp : p.1 = k
    · subst hp
      simp [aget, aset, h']
    · simp [aget, aset, hp, ih]

theorem storage_capacity_nonneg (g : GameState) : 0 ≤ storage_capacity g := by
  unfold storage_capacity
  positivity

theorem storage_capacity_adjust (g : GameState) (key : String) (delta : ℚ) :
    storage_capacity (adjust_resource g key delta) = storage_capacity g := by
  unfold adjust_resource storage_capacity
  split <;> rfl

theorem rget_adjust_self (g : GameState) (key : String) (delta : ℚ) :
    rget (adjust_resource g key delta) key =
      if delta > 0 ∧ key ≠ "wine" then min (rget g key + delta) (storage_capacity g)
      else rget g key + delta := by
  unfold adjust_resource
  split
  · exact aget_aset_self g.resources key _ 0
  · exact aget_aset_self g.resources key _ 0

theorem rget_adjust_ne (g : GameState) (key key' : String) (delta : ℚ) (h : key' ≠ key) :
    rget (adjust_resource g key delta) key' = rget g key' := by
  unfold adjust_resource
  split
  · exact aget_aset_ne g.resources key key' _ 0 h
  · exact aget_aset_ne g.resources key key' _ 0 h

theorem rget_adjust_wine (g : GameState) (d : ℚ) :
    rget (adjust_resource g "wine" d) "wine" = rget g "wine" + d := by
  unfold adjust_resource
  rw [if_neg (by simp)]
  exact aget_aset_self g.resources "wine" _ 0

theorem gcp_resources_eq (g : GameState) (resource : String) (noise : ℚ) :
    (get_current_price g resource noise).2.resources = g.resources := rfl

theorem list_mul_length_le_sum (l : List ℚ) (c : ℚ) (h : ∀ x ∈ l, c ≤ x) :
    c * l.length ≤ l.sum := by
  induction l with
  | nil => simp
  | cons a t ih =>
    have ha := h a (List.mem_cons_self a t)
    have ht := ih (fun x hx => h x (List.mem_cons_of_mem a hx))
    simp only [List.length_cons, List.sum_cons]
    push_cast
    calc c * ((t.length : ℚ) + 1) = c * t.length + c := by ring
    _ ≤ t.sum + a := add_le_add ht ha
    _ = a + t.sum := by ring

theorem list_le_mean (l : List ℚ) (c : ℚ) (hne : l ≠ []) (h : ∀ x ∈ l, c ≤ x) :
    c ≤ l.sum / (l.length : ℚ) := by
  have hlen : 0 < (l.length : ℚ) := by
    exact_mod_cast List.length_pos.mpr hne
  rw [le_div_iff₀ hlen]
  exact list_mul_length_le_sum l c h

theorem clamped_in_range (x : ℤ) :
    -100 ≤ max (-100) (min 100 x) ∧ max (-100) (min 100 x) ≤ 100 :=
  ⟨le_max_left _ _, max_le (by norm_num) (min_le_left _ _)⟩

/-! ## C1: clamping behaviour of adjust_resource -/

/-- C1 counterexample: the claim asserts that for a non-currency resource the
post-call stock always lies in [0, storage_capacity], but a negative delta
larger than the stock (wood stock 10, delta -20) drives the stock to -10. -/
theorem C1_counterexample :
    ("wood" ≠ "wine") ∧ ¬ (0 ≤ rget (adjust_resource initState "wood" (-20)) "wood") := by
  refine ⟨by decide, ?_⟩
  rw [rget_adjust_self]
  norm_num [rget, aget, initState, init_resources]

/-- C1 (amended): for a non-currency resource whose prior stock lies in
[0, storage_capacity], `adjust_resource` keeps the stock in
[0, storage_capacity] whenever the delta does not overdraw it
(prior + delta ≥ 0); for the currency resource wine every delta is applied
in full and is never capped. -/
theorem C1_adjust_resource_bounds (g : GameState) (key : String) (delta : ℚ)
    (hk : key ≠ "wine") (h0 : 0 ≤ rget g key) (hcap : rget g key ≤ storage_capacity g)
    (haff : 0 ≤ rget g key + delta) :
    (0 ≤ rget (adjust_resource g key delta) key ∧
      rget (adjust_resource g key delta) key ≤ storage_capacity (adjust_resource g key delta)) ∧
    (∀ d : ℚ, rget (adjust_resource g "wine" d) "wine" = rget g "wine" + d) := by
  refine ⟨?_, fun d => rget_adjust_wine g d⟩
  rw [storage_capacity_adjust, rget_adjust_self]
  by_cases hd : delta > 0
  · rw [if_pos ⟨hd, hk⟩]
    exact ⟨le_min haff (storage_capacity_nonneg g), min_le_right _ _⟩
  · rw [if_neg (fun h => hd h.1)]
    have hdle : delta ≤ 0 := le_of_not_gt hd
    exact ⟨haff, by linarith⟩

/-- C1 witness: a concrete in-range call (wood stock 10, delta +5) stays in
[0, storage_capacity]. -/
theorem C1_witness :
    (0 ≤ rget initState "wood" ∧ rget initState "wood" ≤ storage_capacity initState ∧
      0 ≤ rget initState "wood" + 5) ∧
    (0 ≤ rget (adjust_resource initState "wood" 5) "wood" ∧
      rget (adjust_resource initState "wood" 5) "wood" ≤
        storage_capacity (adjust_resource initState "wood" 5)) :=
  ⟨⟨by norm_num [rget, aget, initState, init_resources],
    by norm_num [rget, aget, initState, init_resources, storage_capacity],
    by norm_num [rget, aget, initState, init_resources]⟩,
   (C1_adjust_resource_bounds initState "wood" 5 (by decide)
      (by norm_num [rget, aget, initState, init_resources])
      (by norm_num [rget, aget, initState, init_resources, storage_capacity])
      (by norm_num [rget, aget, initState, init_resources])).1⟩

/-! ## C2: a failed trade leaves both stocks unchanged -/

/-- C2: whenever `execute_trade` reports failure, the currency (wine) stock
and the traded resource stock are exactly what they were before the call
(`get_current_price` touches only the price history, never the stocks). -/
theorem C2_failed_trade_preserves_stocks (g : GameState) (resource : String) (amount : ℚ)
    (is_buying : Bool) (noise : ℚ)
    (h : (execute_trade g resource amount is_buying noise).1 = false) :
    rget (execute_trade g resource amount is_buying noise).2 "wine" = rget g "wine" ∧
    rget (execute_trade g resource amount is_buying noise).2 resource = rget g resource := by
  simp only [execute_trade] at h ⊢
  split_ifs at h ⊢ <;> exact ⟨rfl, rfl⟩

/-- C2 witness: a trade of amount 0 fails and leaves both stocks unchanged. -/
theorem C2_witness :
    (execute_trade initState "wood" 0 true 1).1 = false ∧
    (rget (execute_trade initState "wood" 0 true 1).2 "wine" = rget initState "wine" ∧
      rget (execute_trade initState "wood" 0 true 1).2 "wood" = rget initState "wood") := by
  have h : (execute_trade initState "wood" 0 true 1).1 = false := by
    simp only [execute_trade]
    norm_num
  exact ⟨h, C2_failed_trade_preserves_stocks initState "wood" 0 true 1 h⟩

/-! ## C3: one-shot application of technology and secret effects -/

/-- A second `discover_secret` call on an already-discovered secret is a
no-op: the guard fires before any debit. -/
theorem discover_secret_discovered (g : GameState) (sid : String) (s : Secret)
    (hfind : alookup g.ancients_secrets sid = some s) (hd : s.discovered = true) :
    discover_secret g sid = (false, g) := by
  unfold discover_secret
  rw [hfind]
  simp [hd]

/-- C3: `discover_secret` on a discovered secret is indeed a guarded no-op,
but `_research_technology` has no such guard — invoked again on the already
researched `industrial_revolution` it debits steel 30 → 10 (and coal 30 → 0)
a second time and compounds the craft-speed multiplier 1.5 → 2.25, so the
claimed idempotence fails on the technology side. -/
theorem C3_second_research_reapplies :
    discover_secret gC3 "seed_of_prosperity" = (false, gC3) ∧
    ((alookup gC3.technologies "industrial_revolution").map Technology.researched
      = some true) ∧
    rget gC3 "steel" = 30 ∧
    rget (research_technology gC3 "industrial_revolution") "steel" = 10 ∧
    rget (research_technology gC3 "industrial_revolution") "coal" = 0 ∧
    gC3.craft_speed_multiplier = 3/2 ∧
    (research_technology gC3 "industrial_revolution").craft_speed_multiplier = 9/4 := by
  refine ⟨?_, by simp [gC3, initState, init_technologies, alookup, aset], ?_, ?_, ?_, ?_, ?_⟩
  · exact discover_secret_discovered gC3 "seed_of_prosperity"
      ⟨"Семя Процветания", "Древняя технология улучшения урожая",
       [("food", 50), ("research", 10)], "double_agriculture", true⟩
      (by simp [gC3, initState, init_secrets, alookup, aset]) rfl
  · simp [rget, gC3, initState, init_resources, aget, aset]
  · simp [research_technology, gC3, initState, init_resources, init_technologies, alookup,
      aset, aget, rget, adjust_resource, apply_tech_effect, storage_capacity] <;>
      norm_num [aget, aset]
  · simp [research_technology, gC3, initState, init_resources, init_technologies, alookup,
      aset, aget, rget, adjust_resource, apply_tech_effect, storage_capacity] <;>
      norm_num [aget, aset]
  · rfl
  · simp [research_technology, gC3, initState, init_resources, init_technologies, alookup,
      aset, aget, rget, adjust_resource, apply_tech_effect, storage_capacity] <;>
      norm_num

/-! ## C4: the worker accounting invariant -/

/-- Worker (re)assignment preserves the invariant: accepted updates recompute
`idle_workers` as population minus the new total, rejected ones change
nothing. -/
theorem assign_worker_preserves_invariant (g : GameState) (b : String) (n : ℤ)
    (h : worker_invariant g) : worker_invariant (assign_worker g b n) := by
  unfold assign_worker
  cases halk : alookup g.buildings b with
  | none => exact h
  | some cnt =>
    by_cases h1 : cnt ≤ 0
    · simpa [h1] using h
    · by_cases h2 : n - aget g.workers b 0 > 0 ∧ n - aget g.workers b 0 > g.idle_workers
      · simpa [h1, h2] using h
      · simp only [h1, h2, if_false, if_true]
        unfold worker_invariant workers_total
        simp

/-- C4: the invariant holds before the day ends, but the starvation death in
`_end_of_day` only clamps `idle_workers` at zero and never unassigns the dead
settler, so afterwards idle + assigned = 0 + 2 while the population is 1. -/
theorem C4_starvation_breaks_invariant :
    worker_invariant gC4 ∧
    (end_of_day gC4 true false).population = 1 ∧
    workers_total (end_of_day gC4 true false) = 2 ∧
    (end_of_day gC4 true false).idle_workers = 0 ∧
    ¬ worker_invariant (end_of_day gC4 true false) := by
  refine ⟨by simp [worker_invariant, workers_total, gC4, initState], ?_, ?_, ?_, ?_⟩ <;>
    simp [worker_invariant, workers_total, end_of_day, gC4, initState, init_resources,
      rget, aget, aset, adjust_resource, storage_capacity] <;>
    norm_num

/-! ## C5: serialize / deserialize round trip -/

theorem apply_char_save_self (c : Character) : apply_char_save c (char_save c) = c := rfl

theorem restore_char_names (chars : List Character) (cd : CharSave) :
    (restore_char chars cd).map Character.name = chars.map Character.name := by
  induction chars with
  | nil => rfl
  | cons c rest ih =>
    unfold restore_char
    by_cases h1 : ∃ x ∈ rest, x.name = cd.name
    · rw [if_pos h1]
      simp only [List.map_cons, ih]
    · rw [if_neg h1]
      by_cases h2 : c.name = cd.name
      · rw [if_pos h2]
        rfl
      · rw [if_neg h2]

theorem restore_char_cons (c : Character) (rest : List Character) (cd : CharSave)
    (h : ∃ x ∈ rest, x.name = cd.name) :
    restore_char (c :: rest) cd = c :: restore_char rest cd := by
  show (if ∃ x ∈ rest, x.name = cd.name then c :: restore_char rest cd
        else if c.name = cd.name then apply_char_save c cd :: rest else c :: rest) =
      c :: restore_char rest cd
  rw [if_pos h]

theorem foldl_restore_cons (c : Character) (rest : List Character) (cds : List CharSave)
    (h : ∀ cd ∈ cds, ∃ x ∈ rest, x.name = cd.name) :
    cds.foldl restore_char (c :: rest) = c :: cds.foldl restore_char rest := by
  induction cds generalizing rest with
  | nil => rfl
  | cons cd cds ih =>
    rw [List.foldl_cons, List.foldl_cons,
        restore_char_cons c rest cd (h cd (List.mem_cons_self cd cds))]
    apply ih
    intro cd' hcd'
    obtain ⟨x, hx, hname⟩ := h cd' (List.mem_cons_of_mem cd hcd')
    have hmem : cd'.name ∈ (restore_char rest cd).map Character.name := by
      rw [restore_char_names]
      exact List.mem_map.mpr ⟨x, hx, hname⟩
    obtain ⟨y, hy, hyname⟩ := List.mem_map.mp hmem
    exact ⟨y, hy, hyname⟩

/-- Restoring each saved character entry over the very list it was saved
from is the identity, provided the character names are distinct (true in
every reachable game: the three names are fixed at creation). -/
theorem roundtrip_chars (chars : List Character)
    (h : (chars.map Character.name).Nodup) :
    (chars.map char_save).foldl restore_char chars = chars := by
  induction chars with
  | nil => rfl
  | cons c rest ih =>
    rw [List.map_cons] at h
    have h' := List.nodup_cons.mp h
    rw [List.map_cons, List.foldl_cons]
    have hnotin : ¬ ∃ x ∈ rest, x.name = (char_save c).name := by
      rintro ⟨x, hx, hname⟩
      exact h'.1 (List.mem_map.mpr ⟨x, hx, hname⟩)
    have hstep : restore_char (c :: rest) (char_save c) = c :: rest := by
      show (if ∃ x ∈ rest, x.name = (char_save c).name then
              c :: restore_char rest (char_save c)
            else if c.name = (char_save c).name then
              apply_char_save c (char_save c) :: rest
            else c :: rest) = c :: rest
      rw [if_neg hnotin, if_pos (show c.name = (char_save c).name from rfl),
        apply_char_save_self]
    rw [hstep, foldl_restore_cons c rest (rest.map char_save)
        (fun cd hcd => by
          obtain ⟨x, hx, hxeq⟩ := List.mem_map.mp hcd
          exact ⟨x, hx, by subst hxeq; rfl⟩),
      ih h'.2]

/-- C5: deserializing a freshly serialized state restores every field —
the persisted ones are written back verbatim (characters matched by their
distinct names), the rest were never touched. -/
theorem C5_roundtrip (g : GameState) (h : (g.characters.map Character.name).Nodup) :
    deserialize g (serialize g) = g := by
  simp only [deserialize, serialize]
  rw [roundtrip_chars g.characters h]

/-- C5 witness: the round trip at the concrete state of the claim. -/
theorem C5_witness :
    ((gC5.characters.map Character.name).Nodup) ∧ deserialize gC5 (serialize gC5) = gC5 :=
  ⟨by decide, C5_roundtrip gC5 (by decide)⟩

/-! ## C6: the economic victory condition sums ALL resources, wine included -/

/-- C6 counterexample: with wine at 700 and only 32 units of non-currency
wealth, `_check_victory` fires the economic victory even though the
non-currency wealth is nowhere near the 650 threshold — so the claim that
wine is excluded from the summed wealth is false. -/
theorem C6_counterexample :
    (check_victory gC6).1 = true ∧ ¬ non_currency_wealth gC6 > 650 := by
  constructor
  · simp only [check_victory, resources_sum, overall_health, gC6, initState, init_resources,
      init_biomes, aset, String.reduceEq, if_false, if_true]
    norm_num
  · simp [non_currency_wealth, gC6, initState, init_resources, aset]
    norm_num

/-- C6 (amended): when no earlier condition fires and victory is not yet
latched, the economic victory condition evaluated by `_check_victory` holds
exactly when the total of ALL resource stocks — the currency wine included —
exceeds 650. -/
theorem C6_economic_condition (g : GameState)
    (h1 : g.research_complete = false) (h2 : g.victory_achieved = false)
    (h3 : ¬ overall_health g > 85) (h4 : g.discovered_lore.length < 2) :
    ((check_victory g).1 = true ↔ resources_sum g > 650) := by
  have c1 : ¬ (g.research_complete = true ∧ g.victory_achieved = false) := by simp [h1]
  have c3 : ¬ (overall_health g > 85 ∧ g.victory_achieved = false) := fun hc => h3 hc.1
  have c4 : ¬ (g.discovered_lore.length ≥ 2 ∧ g.victory_achieved = false) :=
    fun hc => absurd hc.1 (by omega)
  unfold check_victory
  rw [if_neg c1]
  by_cases hs : resources_sum g > 650
  · rw [if_pos ⟨hs, h2⟩]
    simpa using hs
  · rw [if_neg (fun hc => hs hc.1), if_neg c3, if_neg c4]
    simpa using hs

/-- C6 witness: the amended equivalence, instantiated at the wine-rich state. -/
theorem C6_witness :
    (check_victory gC6).1 = true ∧ resources_sum gC6 > 650 := by
  have hsum : resources_sum gC6 > 650 := by
    simp only [resources_sum, gC6, initState, init_resources, aset, String.reduceEq,
      if_false, if_true]
    norm_num
  have heco : ¬ overall_health gC6 > 85 := by
    simp only [overall_health, gC6, initState, init_biomes]
    norm_num
  exact ⟨(C6_economic_condition gC6 rfl rfl heco (by simp [gC6, initState])).mpr hsum, hsum⟩

/-! ## C7: relationship-score updates -/

/-- C7 counterexample: completing the quest at score 80 yields score 105,
outside [-100, 100] — quest completion does not clamp. -/
theorem C7_counterexample :
    rel_score cC7 = 80 ∧ rel_score (help_character_quest gC7 cC7).2 = 105 ∧
    ¬ rel_score (help_character_quest gC7 cC7).2 ≤ 100 := by
  refine ⟨by decide, ?_, ?_⟩ <;>
    · simp only [help_character_quest, rel_score, cC7, gC7, initState, init_biomes]
      norm_num [aget, aset, List.erase]

/-- C7 (amended): the relationship updates of `react_to_action`, talking and
market trading keep a score that starts in [-100, 100] inside [-100, 100]
(the first is clamped on both sides, the other two cap at 100 and only ever
increase); the quest-completion update alone is unclamped and can leave the
range. -/
theorem C7_clamped_updates (g : GameState) (c : Character) (action resource : String)
    (amount noise : ℚ) (h1 : -100 ≤ rel_score c) (h2 : rel_score c ≤ 100) :
    (-100 ≤ rel_score (react_to_action c action) ∧
      rel_score (react_to_action c action) ≤ 100) ∧
    (-100 ≤ rel_score (talk_to_character c) ∧ rel_score (talk_to_character c) ≤ 100) ∧
    (-100 ≤ rel_score (trade_with_character g c resource amount noise).2 ∧
      rel_score (trade_with_character g c resource amount noise).2 ≤ 100) := by
  unfold rel_score at h1 h2 ⊢
  refine ⟨?_, ?_, ?_⟩
  · simp only [react_to_action]
    rw [aget_aset_self]
    exact clamped_in_range _
  · simp only [talk_to_character]
    by_cases hr : aget c.relationships "player" 0 < 80
    · rw [if_pos hr]
      dsimp only
      rw [aget_aset_self]
      exact ⟨le_min (by norm_num) (by linarith), min_le_left _ _⟩
    · rw [if_neg hr]
      exact ⟨h1, h2⟩
  · unfold trade_with_character
    by_cases h20 : aget c.relationships "player" 0 < 20
    · rw [if_pos h20]
      exact ⟨h1, h2⟩
    · rw [if_neg h20]
      by_cases hok : (execute_trade g resource amount true noise).1 = true
      · rw [if_pos hok]
        dsimp only
        rw [aget_aset_self]
        exact ⟨le_min (by norm_num) (by linarith), min_le_left _ _⟩
      · rw [if_neg hok]
        exact ⟨h1, h2⟩

/-- C7 witness: the clamped updates at the forest elder at score 80 reacting
to deforestation / talking / trading one wood. -/
theorem C7_witness :
    (-100 ≤ rel_score (react_to_action cC7 "deforestation") ∧
      rel_score (react_to_action cC7 "deforestation") ≤ 100) ∧
    (-100 ≤ rel_score (talk_to_character cC7) ∧ rel_score (talk_to_character cC7) ≤ 100) ∧
    (-100 ≤ rel_score (trade_with_character initState cC7 "wood" 1 1).2 ∧
      rel_score (trade_with_character initState cC7 "wood" 1 1).2 ≤ 100) :=
  C7_clamped_updates initState cC7 "deforestation" "wood" 1 1 (by decide) (by decide)

/-! ## C8: non-positive amounts are rejected, but the price history is touched first -/

/-- C8 counterexample: the claim says a non-positive amount is rejected
before ANY state, including the rolling price history, is touched; in the
code `get_current_price` runs first and appends a price sample, so the
rejected call with amount 0 changes the price history. -/
theorem C8_counterexample :
    (execute_trade initState "wood" 0 true 1).1 = false ∧
    (execute_trade initState "wood" 0 true 1).2.priceHistory ≠ initState.priceHistory := by
  constructor
  · simp only [execute_trade]
    norm_num
  · intro hcontra
    have hlen : ((execute_trade initState "wood" 0 true 1).2.priceHistory).length =
        (initState.priceHistory).length := by rw [hcontra]
    simp only [execute_trade, get_current_price, initState] at hlen
    norm_num [aset, aget] at hlen

/-- C8 (amended): for every amount ≤ 0 the trade is rejected with the
resource stocks (and every other field) unchanged, except that
`get_current_price`, evaluated before the amount guard, has appended one
sample to the rolling price history. -/
theorem C8_nonpositive_amount_rejected (g : GameState) (resource : String) (amount : ℚ)
    (is_buying : Bool) (noise : ℚ) (h : amount ≤ 0) :
    (execute_trade g resource amount is_buying noise).1 = false ∧
    (execute_trade g resource amount is_buying noise).2.resources = g.resources ∧
    (execute_trade g resource amount is_buying noise).2 =
      { g with priceHistory := (get_current_price g resource noise).2.priceHistory } := by
  simp only [execute_trade]
  rw [if_pos h]
  exact ⟨rfl, rfl, rfl⟩

/-- C8 witness: the amended statement at a concrete rejected sale. -/
theorem C8_witness :
    (execute_trade initState "rock" (-3) false 1).1 = false ∧
    (execute_trade initState "rock" (-3) false 1).2.resources = initState.resources :=
  ⟨(C8_nonpositive_amount_rejected initState "rock" (-3) false 1 (by norm_num)).1,
   (C8_nonpositive_amount_rejected initState "rock" (-3) false 1 (by norm_num)).2.1⟩

/-! ## C9: the reported market price never drops below 0.1 -/

/-- C9: whatever the stock saturation, event window, trend and noise draw,
and for any rolling history whose recorded samples are all ≥ 0.1 (which
holds for every history the market itself can build, the empty one
included, since each appended sample is clamped to ≥ 0.1 — see the second
conjunct), the reported price is at least 0.1. -/
theorem C9_price_floor (g : GameState) (resource : String) (noise : ℚ)
    (h : ∀ x ∈ aget g.priceHistory resource [], (1/10 : ℚ) ≤ x) :
    (1/10 : ℚ) ≤ (get_current_price g resource noise).1 ∧
    ∀ x ∈ aget (get_current_price g resource noise).2.priceHistory resource [],
      (1/10 : ℚ) ≤ x := by
  simp only [get_current_price]
  set p := max (1/10 : ℚ)
    (base_price resource * (saturation_modifier g resource * event_modifier g * g.trend) *
      noise) with hp
  set hist0 := aget g.priceHistory resource [] ++ [p] with hh0
  set hist := if 20 < hist0.length then hist0.tail else hist0 with hh
  have hple : (1/10 : ℚ) ≤ p := le_max_left _ _
  have hmem : ∀ x ∈ hist, (1/10 : ℚ) ≤ x := by
    intro x hx
    have hx0 : x ∈ hist0 := by
      by_cases hlen : 20 < hist0.length
      · rw [hh, if_pos hlen] at hx
        exact List.mem_of_mem_tail hx
      · rw [hh, if_neg hlen] at hx
        exact hx
    rcases List.mem_append.mp (hh0 ▸ hx0) with h1 | h2
    · exact h x h1
    · rw [List.mem_singleton.mp h2]
      exact hple
  have hne : hist ≠ [] := by
    by_cases hlen : 20 < hist0.length
    · rw [hh, if_pos hlen]
      intro hcon
      have hlen2 : hist0.tail.length = 0 := by rw [hcon]; rfl
      rw [List.length_tail] at hlen2
      omega
    · rw [hh, if_neg hlen, hh0]
      simp
  refine ⟨?_, ?_⟩
  · have havg := list_le_mean hist (1/10) hne hmem
    linarith
  · intro x hx
    rw [aget_aset_self] at hx
    exact hmem x hx

/-- C9 witness: the floor at a fresh game (empty history), wood, unit noise. -/
theorem C9_witness :
    (∀ x ∈ aget initState.priceHistory "wood" [], (1/10 : ℚ) ≤ x) ∧
    (1/10 : ℚ) ≤ (get_current_price initState "wood" 1).1 :=
  ⟨by simp [initState, aget],
   (C9_price_floor initState "wood" 1 (by simp [initState, aget])).1⟩

/-! ## C10: a purchase clamped by storage silently loses the excess -/

/-- C10: with wood already at capacity, buying 10 wood succeeds, debits the
full price times amount (price 0.6, so 6 wine: 100 → 94), yet the wood stock
is clamped at the capacity 125 — the credited delta is 0, strictly less than
the 10 paid for. -/
theorem C10_clamped_purchase :
    (execute_trade gC10 "wood" 10 true 1).1 = true ∧
    (get_current_price gC10 "wood" 1).1 = 3/5 ∧
    rget gC10 "wood" = 125 ∧ storage_capacity gC10 = 125 ∧
    rget gC10 "wine" = 100 ∧
    rget (execute_trade gC10 "wood" 10 true 1).2 "wine" = 100 - (3/5) * 10 ∧
    rget (execute_trade gC10 "wood" 10 true 1).2 "wood" = 125 ∧
    rget (execute_trade gC10 "wood" 10 true 1).2 "wood" - rget gC10 "wood" < 10 := by
  refine ⟨?_, ?_, ?_, ?_, ?_, ?_, ?_, ?_⟩ <;>
    simp [execute_trade, get_current_price, saturation_modifier, event_modifier,
      base_price, adjust_resource, rget, aget, aset, storage_capacity, gC10,
      initState, init_resources] <;> norm_num [aget] <;> decide

end Gradostroi
